import Mathlib

/-!
Verification of the SecureReq request engine.

This file gives a shallow embedding of the pre-dispatch pipeline of the two
entry points `HTTPSRequest` and `HTTPS2Request` (src/sources/index.ts), of the
byte aggregator `ConcatArrayBuffers` (the utils module), of the body decoder
(the `switch (ExpectedAs)` blocks), and of the HTTP/2 session lifecycle
handlers, together with theorems settling the specification claims.

Modelling conventions:
  - byte buffers are `List Nat` (one entry per byte);
  - the JavaScript distinction present/absent for an object key is `Option`
    (a key explicitly set to `undefined` is conflated with an absent key;
    no claim depends on that distinction);
  - platform capabilities (the node TLS cipher enumeration, the process
    metadata that feeds the default User-Agent, `TextDecoder`, `JSON.parse`)
    are parameters, since they are external collaborators of the engine.
-/

namespace SecureReq

/-! ## Byte aggregator: ConcatArrayBuffers (src/unnamed/part_000, lines 1-13) -/

/-- Model of `Uint8Array.prototype.set(chunk, offset)` on a backing list:
the bytes of `Buffer` overwrite the slots starting at `Offset`. -/
def setAt (Result : List Nat) (Offset : Nat) (Buffer : List Nat) : List Nat :=
  Result.take Offset ++ Buffer ++ Result.drop (Offset + Buffer.length)

/-- Model of `Buffers.reduce((Sum, Block) => Sum + Block.byteLength, 0)`. -/
def sumLengths (Buffers : List (List Nat)) : Nat :=
  Buffers.foldl (fun Sum Block => Sum + Block.length) 0

/-- The `for (const Buffer of Buffers)` loop of `ConcatArrayBuffers`: writes
each chunk at the running offset. -/
def concatLoop : List (List Nat) → List Nat → Nat → List Nat
  | [], Result, _ => Result
  | Buffer :: rest, Result, Offset =>
      concatLoop rest (setAt Result Offset Buffer) (Offset + Buffer.length)

/-- Embedding of `ConcatArrayBuffers`: allocate a zero buffer of the total
length, then copy every chunk at its running offset. -/
def ConcatArrayBuffers (Buffers : List (List Nat)) : List Nat :=
  concatLoop Buffers (List.replicate (sumLengths Buffers) 0) 0

theorem sumLengths_foldl (Buffers : List (List Nat)) (n : Nat) :
    Buffers.foldl (fun Sum Block => Sum + Block.length) n = n + sumLengths Buffers := by
  induction Buffers generalizing n with
  | nil => simp [sumLengths]
  | cons c bs ih =>
      simp only [List.foldl_cons, sumLengths] at *
      rw [ih, ih (0 + c.length)]
      omega

theorem sumLengths_cons (c : List Nat) (bs : List (List Nat)) :
    sumLengths (c :: bs) = c.length + sumLengths bs := by
  show List.foldl _ _ _ = _
  rw [List.foldl_cons, sumLengths_foldl]
  omega

theorem setAt_append_replicate (w c : List Nat) (m : Nat) :
    setAt (w ++ List.replicate (c.length + m) 0) w.length c
      = (w ++ c) ++ List.replicate m 0 := by
  unfold setAt
  rw [List.take_left]
  have hsplit : w ++ List.replicate (c.length + m) 0
      = (w ++ List.replicate c.length 0) ++ List.replicate m 0 := by
    rw [List.replicate_add, List.append_assoc]
  rw [hsplit, List.drop_left' (by simp), List.append_assoc]

theorem concatLoop_spec (Buffers : List (List Nat)) :
    ∀ Written : List Nat,
      concatLoop Buffers (Written ++ List.replicate (sumLengths Buffers) 0) Written.length
        = Written ++ Buffers.flatten := by
  induction Buffers with
  | nil => intro w; simp [concatLoop, sumLengths]
  | cons c bs ih =>
      intro w
      rw [sumLengths_cons]
      show concatLoop bs
        (setAt (w ++ List.replicate (c.length + sumLengths bs) 0) w.length c)
        (w.length + c.length) = _
      rw [setAt_append_replicate]
      have h := ih (w ++ c)
      rw [List.length_append] at h
      rw [h]
      simp [List.flatten_cons, List.append_assoc]

theorem ConcatArrayBuffers_flatten (Buffers : List (List Nat)) :
    ConcatArrayBuffers Buffers = Buffers.flatten := by
  have h := concatLoop_spec Buffers []
  simpa [ConcatArrayBuffers] using h

theorem sumLengths_eq_sum_map (Buffers : List (List Nat)) :
    sumLengths Buffers = (Buffers.map List.length).sum := by
  induction Buffers with
  | nil => simp [sumLengths]
  | cons c bs ih => rw [sumLengths_cons, List.map_cons, List.sum_cons, ih]

/-! ## Data model (src/sources/index.ts) -/

/-- Model of JavaScript `String.prototype.endsWith` as a suffix test on the
character sequence. -/
def strEndsWith (s suffixStr : String) : Bool :=
  suffixStr.data.isSuffixOf s.data

/-- Model of JavaScript `String.prototype.toLowerCase` as a character-wise
lowercasing of the character sequence. -/
def strToLower (s : String) : String :=
  ⟨s.data.map Char.toLower⟩

/-- Platform capabilities consumed by the pre-dispatch phase: the node cipher
enumeration `TLS.getCiphers()` and the process metadata that feeds the default
User-Agent header value. -/
structure Env where
  supportedCiphers : List String
  userAgent : String
deriving DecidableEq, Repr

/-- The caller-supplied `TLS` options object. Every key is optional in the
source schema (`.partial().optional()`), so every field is an `Option`. -/
structure TLSOverride where
  IsHTTPSEnforced : Option Bool := none
  MinTLSVersion : Option String := none
  MaxTLSVersion : Option String := none
  Ciphers : Option (List String) := none
  KeyExchanges : Option (List String) := none
deriving DecidableEq, Repr

/-- The `Payload` union of the source schema:
`Zod.union([Zod.string(), Zod.instanceof(ArrayBuffer), Zod.instanceof(Uint8Array)])`. -/
inductive Payload where
  | str : String → Payload
  | arrayBuffer : List Nat → Payload
  | uint8Array : List Nat → Payload
deriving DecidableEq, Repr

/-- JavaScript truthiness of a payload value: the empty string is falsy,
every other string and every buffer object is truthy. -/
def Payload.truthy : Payload → Bool
  | .str s => !(s == "")
  | .arrayBuffer _ => true
  | .uint8Array _ => true

/-- The `HTTPSRequestOptions` object. `none` models an absent key. The same
shape also represents the merged options, where defaults have been filled. -/
structure RequestOptions where
  TLS : Option TLSOverride := none
  HttpHeaders : Option (List (String × String)) := none
  HttpMethod : Option String := none
  Payload : Option Payload := none
  ExpectedAs : Option String := none
deriving DecidableEq, Repr

/-- The fields of a WHATWG `URL` instance read by the engine. -/
structure Url where
  protocol : String
  hostname : String
  port : String
  pathname : String
  search : String
  host : String
deriving DecidableEq, Repr

/-- The `TLS` member of `DefaultOptions` (lines 24-30 and 144-150; the two
literals are identical). -/
def DefaultTLS : TLSOverride :=
  { IsHTTPSEnforced := some true
    MinTLSVersion := some "TLSv1.3"
    MaxTLSVersion := some "TLSv1.3"
    Ciphers := some ["TLS_AES_256_GCM_SHA384", "TLS_CHACHA20_POLY1305_SHA256"]
    KeyExchanges := some ["X25519MLKEM768", "X25519"] }

/-- The `HttpHeaders` member of `DefaultOptions`: one identifying User-Agent
header whose value is built from process metadata (part of `Env`). -/
def DefaultHttpHeaders (env : Env) : List (String × String) :=
  [("User-Agent", env.userAgent)]

/-- Embedding of `MergedOptions = { ...DefaultOptions, ...(Options ?? {}) }`
(lines 37 and 157; the two `DefaultOptions` literals differ only in key
order, which is invisible to the spread). The spread is shallow at the top
level: a key present in `Options` replaces the whole default value for that
key, nested objects included. -/
def mergeOptions (env : Env) (Options : RequestOptions) : RequestOptions :=
  { TLS :=
      match Options.TLS with
      | some t => some t
      | none => some DefaultTLS
    HttpHeaders :=
      match Options.HttpHeaders with
      | some h => some h
      | none => some (DefaultHttpHeaders env)
    HttpMethod :=
      match Options.HttpMethod with
      | some m => some m
      | none => some "GET"
    Payload := Options.Payload
    ExpectedAs := Options.ExpectedAs }

/-! ## Schema validation (the Zod strict objects, lines 42-54 and 162-174) -/

/-- Embedding of the cipher refinement
`TLS.getCiphers().map(C => C.toLowerCase()).includes(Cipher.toLowerCase())`. -/
def cipherRecognized (supported : List String) (Cipher : String) : Bool :=
  (supported.map strToLower).contains (strToLower Cipher)

/-- Embedding of the version field schema: absent, or one of the two
enumerants of `Zod.enum(['TLSv1.2', 'TLSv1.3'])`. No relation between the two
bounds is checked. -/
def tlsVersionFieldOk : Option String → Bool
  | none => true
  | some v => v == "TLSv1.2" || v == "TLSv1.3"

/-- Embedding of the `TLS` member schema: version enumerants plus the cipher
refinement. `IsHTTPSEnforced` (a boolean) and `KeyExchanges` (strings) carry
no refinement beyond their types, which the embedding enforces by typing. -/
def tlsSchemaOk (supported : List String) : Option TLSOverride → Bool
  | none => true
  | some t =>
      tlsVersionFieldOk t.MinTLSVersion && tlsVersionFieldOk t.MaxTLSVersion &&
      (match t.Ciphers with
       | none => true
       | some cs => cs.all (cipherRecognized supported))

/-- Embedding of `HttpHeaders: Zod.record(Zod.string(), Zod.string())`: the
schema constrains only the types of keys and values, which the embedding
enforces by typing; it applies no refinement to the value contents (in
particular, no control-character scan). -/
def headersSchemaOk (_ : Option (List (String × String))) : Bool :=
  true

/-- Embedding of the method enum `Zod.enum([...7 methods])`. -/
def httpMethodSchemaOk : Option String → Bool
  | none => true
  | some m => ["GET", "POST", "PUT", "DELETE", "PATCH", "HEAD", "OPTIONS"].contains m

/-- Embedding of the payload union schema: membership in the union is
enforced by the typing of `Payload`; no further refinement. -/
def payloadSchemaOk (_ : Option Payload) : Bool :=
  true

/-- Embedding of `ExpectedAs: Zod.enum(['JSON', 'String', 'ArrayBuffer'])`. -/
def expectedAsSchemaOk : Option String → Bool
  | none => true
  | some e => ["JSON", "String", "ArrayBuffer"].contains e

/-- The Zod strict object of `HTTPSRequest` (lines 42-54), fields in source
order: TLS, HttpHeaders, HttpMethod, Payload, ExpectedAs. -/
def HTTPSRequestSchemaOk (env : Env) (Options : RequestOptions) : Bool :=
  tlsSchemaOk env.supportedCiphers Options.TLS &&
  headersSchemaOk Options.HttpHeaders &&
  httpMethodSchemaOk Options.HttpMethod &&
  payloadSchemaOk Options.Payload &&
  expectedAsSchemaOk Options.ExpectedAs

/-- The Zod strict object of `HTTPS2Request` (lines 162-174), fields in
source order: TLS, HttpHeaders, ExpectedAs, HttpMethod, Payload. -/
def HTTPS2RequestSchemaOk (env : Env) (Options : RequestOptions) : Bool :=
  tlsSchemaOk env.supportedCiphers Options.TLS &&
  headersSchemaOk Options.HttpHeaders &&
  expectedAsSchemaOk Options.ExpectedAs &&
  httpMethodSchemaOk Options.HttpMethod &&
  payloadSchemaOk Options.Payload

/-! ## Pre-dispatch checks and body-kind inference -/

/-- Truthiness of `MergedOptions.TLS?.IsHTTPSEnforced` (lines 56 and 176):
an absent TLS object or an absent flag is `undefined`, hence falsy. -/
def isHTTPSEnforcedFlag (Merged : RequestOptions) : Bool :=
  match Merged.TLS with
  | none => false
  | some t => t.IsHTTPSEnforced.getD false

/-- Truthiness of `MergedOptions.Payload` (lines 60 and 180). -/
def payloadTruthy (Merged : RequestOptions) : Bool :=
  match Merged.Payload with
  | none => false
  | some p => p.truthy

/-- The allowed-body-methods literal of lines 60 and 180. -/
def AllowedBodyMethods : List String :=
  ["GET", "POST", "PUT", "PATCH", "OPTIONS"]

/-- Embedding of the `ExpectedAs` selection (lines 64 and 184): the explicit
option wins; otherwise the kind is inferred from the URL path extension. -/
def inferExpectedAs (Options : RequestOptions) (Url : Url) : String :=
  match Options.ExpectedAs with
  | some e => e
  | none =>
      if strEndsWith Url.pathname ".json" then "JSON"
      else if strEndsWith Url.pathname ".txt" then "String"
      else "ArrayBuffer"

/-- The error kinds a request can fail with before dispatch. `SchemaError`
is the ZodError thrown by `parseAsync` (covering enum violations and the
cipher refinement); the other two are the explicit `throw` statements. -/
inductive ConfigError where
  | SchemaError
  | SchemeNotAllowed
  | PayloadNotAllowedForMethod
deriving DecidableEq, Repr

/-- What the pre-dispatch phase hands to the dispatcher when it succeeds. -/
structure DispatchPlan where
  Merged : RequestOptions
  ExpectedAs : String
deriving DecidableEq, Repr

/-- The pre-dispatch phase of `HTTPSRequest` (lines 22-64): merge, schema
validation, scheme-enforcement check, payload-method check, body-kind
selection. The `URL` instance check of lines 38-40 is enforced by typing. -/
def HTTPSRequestPre (env : Env) (Url : Url) (Options : RequestOptions) :
    Except ConfigError DispatchPlan :=
  let Merged := mergeOptions env Options
  if HTTPSRequestSchemaOk env Options = false then
    .error .SchemaError
  else if isHTTPSEnforcedFlag Merged && Url.protocol != "https:" then
    .error .SchemeNotAllowed
  else if payloadTruthy Merged && !(AllowedBodyMethods.contains (Merged.HttpMethod.getD "GET")) then
    .error .PayloadNotAllowedForMethod
  else
    .ok { Merged := Merged, ExpectedAs := inferExpectedAs Options Url }

/-- The pre-dispatch phase of `HTTPS2Request` (lines 142-184), transcribed
from its own lines; it differs textually from `HTTPSRequestPre` only in the
field order of its Zod schema. -/
def HTTPS2RequestPre (env : Env) (Url : Url) (Options : RequestOptions) :
    Except ConfigError DispatchPlan :=
  let Merged := mergeOptions env Options
  if HTTPS2RequestSchemaOk env Options = false then
    .error .SchemaError
  else if isHTTPSEnforcedFlag Merged && Url.protocol != "https:" then
    .error .SchemeNotAllowed
  else if payloadTruthy Merged && !(AllowedBodyMethods.contains (Merged.HttpMethod.getD "GET")) then
    .error .PayloadNotAllowedForMethod
  else
    .ok { Merged := Merged, ExpectedAs := inferExpectedAs Options Url }

/-- In the source, `HTTPS.request` (line 67) is reached only after every
pre-dispatch check has passed: the three failure paths `throw`/reject before
the Promise executor runs. This flag states whether network dispatch is
reached. -/
def HTTPSRequestDispatches (env : Env) (Url : Url) (Options : RequestOptions) : Bool :=
  (HTTPSRequestPre env Url Options).isOk

/-- In the source, `HTTP2.connect` (line 188) is reached only after every
pre-dispatch check has passed. -/
def HTTPS2RequestDispatches (env : Env) (Url : Url) (Options : RequestOptions) : Bool :=
  (HTTPS2RequestPre env Url Options).isOk

/-- In the source, `HTTPSRequestInstance.write` is guarded only by
`MergedOptions.Payload !== undefined` (line 113), and likewise
`Request.write` at line 266: presence, not truthiness. -/
def payloadWriteAttempted (Merged : RequestOptions) : Bool :=
  Merged.Payload.isSome

/-! ## Body decoding (the `switch (ExpectedAs)` blocks, lines 86-100 and
237-252) and the response envelope -/

/-- The decoded body. `J` is the (opaque) type of values produced by the
platform `JSON.parse`; `bodyUndefined` models the fall-through of the `switch` when
`ExpectedAs` is none of the three cases, leaving `Body` undefined. -/
inductive DecodedBody (J : Type) where
  | json : J → DecodedBody J
  | text : String → DecodedBody J
  | bytes : List Nat → DecodedBody J
  | bodyUndefined : DecodedBody J
deriving DecidableEq, Repr

/-- The decode failure: `new Error('Failed to parse JSON response body')`. -/
inductive DecodeError where
  | BodyDecodeError
deriving DecidableEq, Repr

/-- Embedding of the `switch (ExpectedAs)` block shared verbatim by the two
entry points. `utf8Decode` models `new TextDecoder('utf-8').decode` and
`parseJSON` models `JSON.parse` (returning `none` where the platform parser
throws); both are external capabilities. -/
def decodeBody {J : Type} (utf8Decode : List Nat → String)
    (parseJSON : String → Option J) (ExpectedAs : String) (BodyBuffer : List Nat) :
    Except DecodeError (DecodedBody J) :=
  if ExpectedAs == "JSON" then
    match parseJSON (utf8Decode BodyBuffer) with
    | some v => .ok (.json v)
    | none => .error .BodyDecodeError
  else if ExpectedAs == "String" then
    .ok (.text (utf8Decode BodyBuffer))
  else if ExpectedAs == "ArrayBuffer" then
    .ok (.bytes BodyBuffer)
  else
    .ok .bodyUndefined

/-- The `{ StatusCode, Headers, Body }` object resolved to the caller. -/
structure ResponseEnvelope (J : Type) where
  StatusCode : Nat
  Headers : List (String × String)
  Body : DecodedBody J
deriving DecidableEq, Repr

/-- The `Res.on('end')` handler of `HTTPSRequest` (lines 83-106): concatenate
the chunks, decode per `ExpectedAs`, then either reject with the decode error
or resolve one envelope. -/
def HTTPSRequestHandleEnd {J : Type} (utf8Decode : List Nat → String)
    (parseJSON : String → Option J) (ExpectedAs : String) (StatusCode : Nat)
    (Headers : List (String × String)) (Chunks : List (List Nat)) :
    Except DecodeError (ResponseEnvelope J) :=
  let BodyBuffer := ConcatArrayBuffers Chunks
  match decodeBody utf8Decode parseJSON ExpectedAs BodyBuffer with
  | .error e => .error e
  | .ok b => .ok { StatusCode := StatusCode, Headers := Headers, Body := b }

/-! ## HTTP/2 session lifecycle (lines 201-264) -/

/-- The terminal transport events that settle a dispatched HTTP/2 request:
the stream `end` event carrying the collected chunks (lines 234-259), an
error on the request stream (lines 261-264), and an error on the session
itself (lines 201-203). -/
inductive H2Exit where
  | endEvent : List (List Nat) → H2Exit
  | requestError : H2Exit
  | sessionError : H2Exit
deriving Repr

/-- The rejection causes of the HTTP/2 promise. -/
inductive H2Failure where
  | decodeFailure : DecodeError → H2Failure
  | transportError : H2Failure
deriving DecidableEq, Repr

/-- The settlement of a dispatched HTTP/2 request: what the promise does and
how many times `HTTP2Session.close()` was called on that path. -/
structure H2Outcome (J : Type) where
  Result : Except H2Failure (ResponseEnvelope J)
  SessionCloseCount : Nat

/-- Embedding of the terminal event handlers of `HTTPS2Request`
(lines 201-264): on `end`, a JSON parse failure closes the session and
rejects (lines 242-243), any successful decode closes the session and
resolves (lines 253-258); a request-stream error closes the session and
rejects (lines 261-264); a session-level error rejects without a close
(lines 201-203). -/
def HTTPS2HandleExit {J : Type} (utf8Decode : List Nat → String)
    (parseJSON : String → Option J) (ExpectedAs : String) (StatusCode : Nat)
    (ResponseHeaders : List (String × String)) : H2Exit → H2Outcome J
  | .endEvent Chunks =>
      let BodyBuffer := ConcatArrayBuffers Chunks
      match decodeBody utf8Decode parseJSON ExpectedAs BodyBuffer with
      | .error e => { Result := .error (.decodeFailure e), SessionCloseCount := 1 }
      | .ok b =>
          { Result := .ok { StatusCode := StatusCode, Headers := ResponseHeaders, Body := b }
            SessionCloseCount := 1 }
  | .requestError => { Result := .error .transportError, SessionCloseCount := 1 }
  | .sessionError => { Result := .error .transportError, SessionCloseCount := 0 }

/-! ## Concrete fixtures used by counterexamples and witnesses -/

/-- A sample platform environment: the two default cipher suites are
recognized (node reports cipher names in lowercase). -/
def TestEnv : Env :=
  { supportedCiphers := ["tls_aes_256_gcm_sha384", "tls_chacha20_poly1305_sha256"]
    userAgent := "node/v24.0.0 linux x64 workspace/false" }

/-- A non-https target. -/
def HttpUrl : Url :=
  { protocol := "http:", hostname := "example.test", port := "", pathname := "/"
    search := "", host := "example.test" }

/-- An https target. -/
def HttpsUrl : Url :=
  { protocol := "https:", hostname := "example.test", port := "", pathname := "/"
    search := "", host := "example.test" }

/-- A caller TLS object supplying only `Ciphers` (a recognized suite). -/
def CiphersOnlyTLS : TLSOverride :=
  { Ciphers := some ["TLS_AES_256_GCM_SHA384"] }

/-- Options carrying only the TLS object above. -/
def CiphersOnlyOptions : RequestOptions :=
  { TLS := some CiphersOnlyTLS }

/-- Options that enable enforcement but name an unrecognized cipher. -/
def EnforcedBogusCipherOptions : RequestOptions :=
  { TLS := some { IsHTTPSEnforced := some true, Ciphers := some ["BOGUS_CIPHER_NAME"] } }

/-- Options whose TLS version bounds are both supported enumerants with the
minimum strictly above the maximum. -/
def MinAboveMaxOptions : RequestOptions :=
  { TLS := some { IsHTTPSEnforced := some true
                  MinTLSVersion := some "TLSv1.3", MaxTLSVersion := some "TLSv1.2" } }

/-- Options carrying a header value that contains a control character. -/
def ControlCharHeaderOptions : RequestOptions :=
  { HttpHeaders := some [("X-Test", "line1\nline2")] }

/-- Options pairing an empty-string payload with the DELETE method. -/
def EmptyStringPayloadDeleteOptions : RequestOptions :=
  { HttpMethod := some "DELETE", Payload := some (.str "") }

/-! ## Shared helper lemmas -/

/-- The two Zod schemas check the same per-field predicates; only the field
order of the strict objects differs, and conjunction order is invisible. -/
theorem schemaOk_comm (env : Env) (o : RequestOptions) :
    HTTPSRequestSchemaOk env o = HTTPS2RequestSchemaOk env o := by
  unfold HTTPSRequestSchemaOk HTTPS2RequestSchemaOk headersSchemaOk payloadSchemaOk
  cases tlsSchemaOk env.supportedCiphers o.TLS <;>
    cases httpMethodSchemaOk o.HttpMethod <;>
      cases expectedAsSchemaOk o.ExpectedAs <;> rfl

/-- A schema-valid input with enforcement enabled and a non-https scheme
fails the scheme check in both entry points. Shared helper. -/
theorem pre_scheme_error (env : Env) (u : Url) (o : RequestOptions)
    (hschema : HTTPSRequestSchemaOk env o = true)
    (henf : isHTTPSEnforcedFlag (mergeOptions env o) = true)
    (hscheme : u.protocol ≠ "https:") :
    HTTPSRequestPre env u o = .error .SchemeNotAllowed ∧
    HTTPS2RequestPre env u o = .error .SchemeNotAllowed := by
  have hschema2 : HTTPS2RequestSchemaOk env o = true := by
    rw [← schemaOk_comm]
    exact hschema
  have hbne : (u.protocol != "https:") = true := by
    simp [bne_iff_ne, hscheme]
  constructor
  · unfold HTTPSRequestPre
    simp [hschema, henf, hbne]
  · unfold HTTPS2RequestPre
    simp [hschema2, henf, hbne]

/-! ## Claim theorems -/

/-- C6: `ConcatArrayBuffers` returns the ordered concatenation of its
chunks: the result equals the flattening of the chunk list, its length is
the sum of the chunk lengths, every chunk occupies the offset determined by
the chunks before it, and reassembling any splitting of a buffer reproduces
that buffer exactly. -/
theorem concat_is_ordered_concatenation (Buffers : List (List Nat)) :
    ConcatArrayBuffers Buffers = Buffers.flatten ∧
    (ConcatArrayBuffers Buffers).length = sumLengths Buffers ∧
    (∀ Original : List Nat, Buffers.flatten = Original → ConcatArrayBuffers Buffers = Original) ∧
    (∀ i : Nat, ∀ h : i < Buffers.length,
      ((ConcatArrayBuffers Buffers).drop (sumLengths (Buffers.take i))).take Buffers[i].length
        = Buffers[i]) := by
  refine ⟨ConcatArrayBuffers_flatten Buffers, ?_, ?_, ?_⟩
  · rw [ConcatArrayBuffers_flatten, List.length_flatten, sumLengths_eq_sum_map]
  · intro Original hO
    rw [ConcatArrayBuffers_flatten, hO]
  · intro i h
    have hdecomp : Buffers = Buffers.take i ++ Buffers[i] :: Buffers.drop (i + 1) := by
      rw [List.getElem_cons_drop Buffers i h, List.take_append_drop]
    have hflat : Buffers.flatten
        = (Buffers.take i).flatten ++ (Buffers[i] ++ (Buffers.drop (i + 1)).flatten) := by
      conv_lhs => rw [hdecomp]
      rw [List.flatten_append, List.flatten_cons]
    have hlen : (Buffers.take i).flatten.length = sumLengths (Buffers.take i) := by
      rw [List.length_flatten, sumLengths_eq_sum_map]
    rw [ConcatArrayBuffers_flatten, hflat, List.drop_left' hlen, List.take_left]

/-- Witness for C6: a concrete buffer split into two chunks is reassembled
exactly, and the second chunk sits at the offset left by the first. -/
theorem concat_is_ordered_concatenation_witness :
    ConcatArrayBuffers [[1, 2], [3, 4, 5]] = [1, 2, 3, 4, 5] ∧
    ((ConcatArrayBuffers [[1, 2], [3, 4, 5]]).drop
        (sumLengths ([[1, 2], [3, 4, 5]].take 1))).take 3 = [3, 4, 5] :=
  ⟨(concat_is_ordered_concatenation [[1, 2], [3, 4, 5]]).2.2.1 [1, 2, 3, 4, 5] (by decide),
   (concat_is_ordered_concatenation [[1, 2], [3, 4, 5]]).2.2.2 1 (by decide)⟩

/-- C9: when no explicit kind is supplied, the decode kind is a pure
function of the target path — `.json` yields JSON, `.txt` yields String,
anything else ArrayBuffer; an explicitly supplied kind is used unchanged and
the path is ignored. -/
theorem expectedAs_inference (Options : RequestOptions) (u : Url) :
    (∀ e, Options.ExpectedAs = some e → inferExpectedAs Options u = e) ∧
    (Options.ExpectedAs = none →
      (∀ u2 : Url, u2.pathname = u.pathname →
        inferExpectedAs Options u2 = inferExpectedAs Options u) ∧
      (strEndsWith u.pathname ".json" = true → inferExpectedAs Options u = "JSON") ∧
      (strEndsWith u.pathname ".json" = false → strEndsWith u.pathname ".txt" = true →
        inferExpectedAs Options u = "String") ∧
      (strEndsWith u.pathname ".json" = false → strEndsWith u.pathname ".txt" = false →
        inferExpectedAs Options u = "ArrayBuffer")) := by
  constructor
  · intro e he
    simp [inferExpectedAs, he]
  · intro hnone
    refine ⟨?_, ?_, ?_, ?_⟩
    · intro u2 hp
      simp [inferExpectedAs, hnone, hp]
    · intro hj
      simp [inferExpectedAs, hnone, hj]
    · intro hj ht
      simp [inferExpectedAs, hnone, hj, ht]
    · intro hj ht
      simp [inferExpectedAs, hnone, hj, ht]

/-- Witness for C9 at concrete paths and at an explicit kind. -/
theorem expectedAs_inference_witness :
    inferExpectedAs {} { HttpsUrl with pathname := "/data.json" } = "JSON" ∧
    inferExpectedAs {} { HttpsUrl with pathname := "/page.txt" } = "String" ∧
    inferExpectedAs {} HttpsUrl = "ArrayBuffer" ∧
    inferExpectedAs { ExpectedAs := some "String" }
      { HttpsUrl with pathname := "/data.json" } = "String" :=
  ⟨((expectedAs_inference {} _).2 rfl).2.1 (by decide),
   ((expectedAs_inference {} _).2 rfl).2.2.1 (by decide) (by decide),
   ((expectedAs_inference {} _).2 rfl).2.2.2 (by decide) (by decide),
   (expectedAs_inference { ExpectedAs := some "String" } _).1 "String" rfl⟩

/-- C10: the entire pre-dispatch phase of the two entry points is
extensionally identical — same defaults, same merge, same schema (same
accepted field set and cipher recognition), same scheme and payload checks,
same body-kind inference — so an input is accepted or rejected, with the
same error kind, by one entry point exactly when it is by the other. -/
theorem pre_dispatch_equivalence (env : Env) (u : Url) (o : RequestOptions) :
    HTTPSRequestPre env u o = HTTPS2RequestPre env u o ∧
    HTTPSRequestDispatches env u o = HTTPS2RequestDispatches env u o := by
  have h : HTTPSRequestPre env u o = HTTPS2RequestPre env u o := by
    unfold HTTPSRequestPre HTTPS2RequestPre
    rw [schemaOk_comm]
  refine ⟨h, ?_⟩
  unfold HTTPSRequestDispatches HTTPS2RequestDispatches
  rw [h]

/-- C1 is refuted: supplying a TLS object containing only `Ciphers` replaces
the whole default TLS object in the merge, so every omitted TLS field
becomes absent rather than keeping its secure default, and scheme
enforcement is silently lost on a non-https target. -/
theorem tls_merge_whole_object_cex :
    (mergeOptions TestEnv CiphersOnlyOptions).TLS = some CiphersOnlyTLS ∧
    ((mergeOptions TestEnv CiphersOnlyOptions).TLS.map TLSOverride.IsHTTPSEnforced)
      = some none ∧
    ((mergeOptions TestEnv CiphersOnlyOptions).TLS.map TLSOverride.MinTLSVersion)
      = some none ∧
    ((mergeOptions TestEnv CiphersOnlyOptions).TLS.map TLSOverride.MaxTLSVersion)
      = some none ∧
    ((mergeOptions TestEnv CiphersOnlyOptions).TLS.map TLSOverride.KeyExchanges)
      = some none ∧
    (mergeOptions TestEnv CiphersOnlyOptions).TLS
      ≠ some { DefaultTLS with Ciphers := some ["TLS_AES_256_GCM_SHA384"] } ∧
    isHTTPSEnforcedFlag (mergeOptions TestEnv CiphersOnlyOptions) = false ∧
    (HTTPSRequestPre TestEnv HttpUrl CiphersOnlyOptions).isOk = true :=
  ⟨rfl, rfl, rfl, rfl, rfl, by decide, rfl, rfl⟩

/-- C1 amended: the option merge is shallow at the top level only. A
caller-supplied TLS object replaces the default TLS object wholesale, so TLS
fields omitted from a partial TLS policy become absent rather than keeping
their secure defaults; top-level fields the caller omits do retain their
defaults, and caller-supplied top-level fields are kept unchanged. -/
theorem merge_is_top_level_shallow (env : Env) (o : RequestOptions) :
    (∀ t, o.TLS = some t → (mergeOptions env o).TLS = some t) ∧
    (o.TLS = none → (mergeOptions env o).TLS = some DefaultTLS) ∧
    (∀ hs, o.HttpHeaders = some hs → (mergeOptions env o).HttpHeaders = some hs) ∧
    (o.HttpHeaders = none → (mergeOptions env o).HttpHeaders = some (DefaultHttpHeaders env)) ∧
    (∀ m, o.HttpMethod = some m → (mergeOptions env o).HttpMethod = some m) ∧
    (o.HttpMethod = none → (mergeOptions env o).HttpMethod = some "GET") ∧
    (mergeOptions env o).Payload = o.Payload ∧
    (mergeOptions env o).ExpectedAs = o.ExpectedAs := by
  refine ⟨?_, ?_, ?_, ?_, ?_, ?_, rfl, rfl⟩
  · intro t ht
    simp [mergeOptions, ht]
  · intro ht
    simp [mergeOptions, ht]
  · intro hs hhs
    simp [mergeOptions, hhs]
  · intro hhs
    simp [mergeOptions, hhs]
  · intro m hm
    simp [mergeOptions, hm]
  · intro hm
    simp [mergeOptions, hm]

/-- Witness for the amended C1 at a concrete partial TLS override. -/
theorem merge_is_top_level_shallow_witness :
    (mergeOptions TestEnv { TLS := some CiphersOnlyTLS, HttpMethod := some "POST" }).TLS
      = some CiphersOnlyTLS ∧
    (mergeOptions TestEnv { TLS := some CiphersOnlyTLS, HttpMethod := some "POST" }).HttpHeaders
      = some (DefaultHttpHeaders TestEnv) ∧
    (mergeOptions TestEnv { TLS := some CiphersOnlyTLS, HttpMethod := some "POST" }).HttpMethod
      = some "POST" :=
  ⟨(merge_is_top_level_shallow TestEnv _).1 CiphersOnlyTLS rfl,
   (merge_is_top_level_shallow TestEnv _).2.2.2.1 rfl,
   (merge_is_top_level_shallow TestEnv _).2.2.2.2.1 "POST" rfl⟩

/-- C2 is refuted as universally stated: a non-https target with enforcement
enabled in the merged TLS policy can fail with the Zod schema error rather
than SchemeNotAllowed, because the schema parse runs before the scheme check
(here the options also name an unrecognized cipher). -/
theorem scheme_error_preempted_by_schema_cex :
    isHTTPSEnforcedFlag (mergeOptions TestEnv EnforcedBogusCipherOptions) = true ∧
    HttpUrl.protocol ≠ "https:" ∧
    HTTPSRequestPre TestEnv HttpUrl EnforcedBogusCipherOptions = .error .SchemaError ∧
    HTTPS2RequestPre TestEnv HttpUrl EnforcedBogusCipherOptions = .error .SchemaError ∧
    ConfigError.SchemaError ≠ ConfigError.SchemeNotAllowed :=
  ⟨rfl, by decide, rfl, rfl, by decide⟩

/-- C2 amended: for every schema-valid options object whose merged TLS
policy has enforcement enabled, a non-https target makes both entry points
fail with SchemeNotAllowed, and dispatch (hence any network I/O) is never
reached. -/
theorem scheme_enforcement_fail_fast (env : Env) (u : Url) (o : RequestOptions)
    (hschema : HTTPSRequestSchemaOk env o = true)
    (henf : isHTTPSEnforcedFlag (mergeOptions env o) = true)
    (hscheme : u.protocol ≠ "https:") :
    HTTPSRequestPre env u o = .error .SchemeNotAllowed ∧
    HTTPS2RequestPre env u o = .error .SchemeNotAllowed ∧
    HTTPSRequestDispatches env u o = false ∧
    HTTPS2RequestDispatches env u o = false := by
  obtain ⟨h1, h2⟩ := pre_scheme_error env u o hschema henf hscheme
  refine ⟨h1, h2, ?_, ?_⟩
  · unfold HTTPSRequestDispatches
    rw [h1]
    rfl
  · unfold HTTPS2RequestDispatches
    rw [h2]
    rfl

/-- Witness for the amended C2: the empty options object (all defaults, so
enforcement on) against a plain http target. -/
theorem scheme_enforcement_fail_fast_witness :
    HTTPSRequestPre TestEnv HttpUrl {} = .error .SchemeNotAllowed ∧
    HTTPSRequestDispatches TestEnv HttpUrl {} = false :=
  ⟨(scheme_enforcement_fail_fast TestEnv HttpUrl {} rfl rfl (by decide)).1,
   (scheme_enforcement_fail_fast TestEnv HttpUrl {} rfl rfl (by decide)).2.2.1⟩

/-- C3 is refuted: on a session-level transport error the dispatched request
rejects, yet the session close count on that exit path is zero — the session
is not closed at all, let alone exactly once. -/
theorem h2_session_error_unclosed_cex :
    (HTTPS2HandleExit (J := Unit) (fun _ => "") (fun _ => none) "ArrayBuffer" 200 []
        .sessionError).Result = .error .transportError ∧
    (HTTPS2HandleExit (J := Unit) (fun _ => "") (fun _ => none) "ArrayBuffer" 200 []
        .sessionError).SessionCloseCount = 0 :=
  ⟨rfl, rfl⟩

/-- C3 amended: the session is closed exactly once on the stream end path
(decode success and decode failure alike) and on the request-stream error
path; on a session-level transport error the promise is rejected without
closing the session. -/
theorem h2_session_close_per_exit {J : Type} (utf8Decode : List Nat → String)
    (parseJSON : String → Option J) (ExpectedAs : String) (StatusCode : Nat)
    (ResponseHeaders : List (String × String)) :
    (∀ Chunks, (HTTPS2HandleExit utf8Decode parseJSON ExpectedAs StatusCode ResponseHeaders
        (.endEvent Chunks)).SessionCloseCount = 1) ∧
    (HTTPS2HandleExit utf8Decode parseJSON ExpectedAs StatusCode ResponseHeaders
        .requestError).SessionCloseCount = 1 ∧
    (HTTPS2HandleExit utf8Decode parseJSON ExpectedAs StatusCode ResponseHeaders
        .sessionError).SessionCloseCount = 0 := by
  refine ⟨?_, rfl, rfl⟩
  intro Chunks
  simp only [HTTPS2HandleExit]
  split <;> rfl

/-- C4 is refuted: an input violating both rule 1 (non-https scheme with
enforcement on) and rule 3 (an unrecognized cipher name) reports the error
of the Zod schema parse, not SchemeNotAllowed, because the schema parse runs
before the scheme check. -/
theorem validation_order_cex :
    cipherRecognized TestEnv.supportedCiphers "BOGUS_CIPHER_NAME" = false ∧
    tlsSchemaOk TestEnv.supportedCiphers EnforcedBogusCipherOptions.TLS = false ∧
    isHTTPSEnforcedFlag (mergeOptions TestEnv EnforcedBogusCipherOptions) = true ∧
    HTTPSRequestPre TestEnv HttpUrl EnforcedBogusCipherOptions = .error .SchemaError ∧
    HTTPS2RequestPre TestEnv HttpUrl EnforcedBogusCipherOptions = .error .SchemaError :=
  ⟨rfl, rfl, rfl, rfl, rfl⟩

/-- C4 amended: validation fails fast in the implemented order — the Zod
schema parse (field shapes, enum membership, cipher recognition) runs first
and its failure preempts every later rule; among the explicit checks of a
schema-valid input, the scheme rule is evaluated before the payload rule,
so an input violating both reports SchemeNotAllowed. -/
theorem schema_validation_precedes_scheme_check (env : Env) (u : Url) (o : RequestOptions) :
    (HTTPSRequestSchemaOk env o = false → HTTPSRequestPre env u o = .error .SchemaError) ∧
    (HTTPS2RequestSchemaOk env o = false → HTTPS2RequestPre env u o = .error .SchemaError) ∧
    (HTTPSRequestSchemaOk env o = true →
      isHTTPSEnforcedFlag (mergeOptions env o) = true → u.protocol ≠ "https:" →
      HTTPSRequestPre env u o = .error .SchemeNotAllowed ∧
      HTTPS2RequestPre env u o = .error .SchemeNotAllowed) := by
  refine ⟨?_, ?_, ?_⟩
  · intro hbad
    unfold HTTPSRequestPre
    simp [hbad]
  · intro hbad
    unfold HTTPS2RequestPre
    simp [hbad]
  · intro hok henf hscheme
    exact pre_scheme_error env u o hok henf hscheme

/-- Witness for the amended C4: a bogus cipher yields the schema error even
on a non-https target; a schema-valid enforcing input yields the scheme
error even though its payload rule is moot. -/
theorem schema_validation_precedes_scheme_check_witness :
    HTTPSRequestPre TestEnv HttpUrl EnforcedBogusCipherOptions = .error .SchemaError ∧
    HTTPSRequestPre TestEnv HttpUrl MinAboveMaxOptions = .error .SchemeNotAllowed :=
  ⟨(schema_validation_precedes_scheme_check TestEnv HttpUrl EnforcedBogusCipherOptions).1 rfl,
   ((schema_validation_precedes_scheme_check TestEnv HttpUrl MinAboveMaxOptions).2.2
      rfl rfl (by decide)).1⟩

/-- C5 is refuted: an options object whose TLS bounds are both supported
enumerants with the minimum above the maximum, and an options object
carrying a header value with a control character, both pass validation and
reach dispatch instead of being rejected with InvalidConfig. -/
theorem lenient_config_accepted_cex :
    (HTTPSRequestPre TestEnv HttpsUrl MinAboveMaxOptions).isOk = true ∧
    (HTTPS2RequestPre TestEnv HttpsUrl MinAboveMaxOptions).isOk = true ∧
    (HTTPSRequestPre TestEnv HttpsUrl ControlCharHeaderOptions).isOk = true ∧
    (HTTPS2RequestPre TestEnv HttpsUrl ControlCharHeaderOptions).isOk = true :=
  ⟨rfl, rfl, rfl, rfl⟩

/-- C5 amended: the schema checks each TLS version bound only for membership
in the two supported enumerants, with no ordering constraint between the
bounds, and checks header values only for being strings, with no control
character scan; every such options object (scheme and payload rules being
satisfied) is accepted by both entry points. -/
theorem no_version_order_or_header_content_check (env : Env) (u : Url)
    (hdrs : List (String × String)) (mn mx : Option String)
    (hmn : tlsVersionFieldOk mn = true) (hmx : tlsVersionFieldOk mx = true)
    (hu : u.protocol = "https:") :
    (HTTPSRequestPre env u
        { TLS := some { IsHTTPSEnforced := some true, MinTLSVersion := mn, MaxTLSVersion := mx }
          HttpHeaders := some hdrs }).isOk = true ∧
    (HTTPS2RequestPre env u
        { TLS := some { IsHTTPSEnforced := some true, MinTLSVersion := mn, MaxTLSVersion := mx }
          HttpHeaders := some hdrs }).isOk = true := by
  constructor <;>
    simp [HTTPSRequestPre, HTTPS2RequestPre, HTTPSRequestSchemaOk, HTTPS2RequestSchemaOk,
      tlsSchemaOk, headersSchemaOk, httpMethodSchemaOk, payloadSchemaOk, expectedAsSchemaOk,
      mergeOptions, isHTTPSEnforcedFlag, payloadTruthy, Except.isOk, Except.toBool,
      hmn, hmx, hu]

/-- Witness for the amended C5: min above max together with a newline in a
header value is accepted. -/
theorem no_version_order_or_header_content_check_witness :
    (HTTPSRequestPre TestEnv HttpsUrl
        { TLS := some { IsHTTPSEnforced := some true, MinTLSVersion := some "TLSv1.3"
                        MaxTLSVersion := some "TLSv1.2" }
          HttpHeaders := some [("X-Test", "line1\nline2")] }).isOk = true :=
  (no_version_order_or_header_content_check TestEnv HttpsUrl [("X-Test", "line1\nline2")]
    (some "TLSv1.3") (some "TLSv1.2") (by decide) (by decide) rfl).1

/-- C7: when the expected body kind is JSON (explicit or inferred) and the
aggregated body fails to parse as JSON, both entry points abort with the
body-decode error and no response envelope is produced; there is no fallback
to text or raw-bytes decoding. -/
theorem structured_decode_failure_aborts {J : Type} (utf8Decode : List Nat → String)
    (parseJSON : String → Option J) (StatusCode : Nat)
    (Headers : List (String × String)) (Chunks : List (List Nat))
    (hfail : parseJSON (utf8Decode (ConcatArrayBuffers Chunks)) = none) :
    HTTPSRequestHandleEnd utf8Decode parseJSON "JSON" StatusCode Headers Chunks
      = .error .BodyDecodeError ∧
    (HTTPS2HandleExit utf8Decode parseJSON "JSON" StatusCode Headers
        (.endEvent Chunks)).Result = .error (.decodeFailure .BodyDecodeError) := by
  constructor
  · simp [HTTPSRequestHandleEnd, decodeBody, hfail]
  · simp [HTTPS2HandleExit, decodeBody, hfail]

/-- Witness for C7 at a concrete non-JSON body. -/
theorem structured_decode_failure_aborts_witness :
    HTTPSRequestHandleEnd (J := Unit) (fun _ => "not json") (fun _ => none) "JSON" 200 [] [[110]]
      = .error .BodyDecodeError :=
  (structured_decode_failure_aborts (fun _ => "not json") (fun _ => none) 200 [] [[110]] rfl).1

/-- C8 fails on the code (a code bug): an empty-string payload is falsy in
JavaScript, so paired with method DELETE it escapes the payload-method gate
and both entry points proceed to dispatch — where the write guard, a
presence check, still writes the empty payload; a truthy empty byte buffer
by contrast is rejected. The presence check used for writing and the
truthiness check used for validation disagree, so the empty string is the
slip, not the intent. -/
theorem empty_string_payload_escapes_method_check :
    payloadTruthy (mergeOptions TestEnv EmptyStringPayloadDeleteOptions) = false ∧
    (mergeOptions TestEnv EmptyStringPayloadDeleteOptions).Payload = some (.str "") ∧
    (HTTPSRequestPre TestEnv HttpsUrl EmptyStringPayloadDeleteOptions).isOk = true ∧
    (HTTPS2RequestPre TestEnv HttpsUrl EmptyStringPayloadDeleteOptions).isOk = true ∧
    payloadWriteAttempted (mergeOptions TestEnv EmptyStringPayloadDeleteOptions) = true ∧
    HTTPSRequestPre TestEnv HttpsUrl
        { HttpMethod := some "DELETE", Payload := some (.uint8Array []) }
      = .error .PayloadNotAllowedForMethod :=
  ⟨rfl, rfl, rfl, rfl, rfl, rfl⟩

end SecureReq
